import Mathlib

set_option linter.unusedVariables false

/-!
Shallow embedding of the SmartHomeSystem-IOT core (src/main.py) and proofs
about it.  Numeric values computed by pure rational arithmetic in the source
are modelled over ℚ; values that go through `math.sqrt` / `10 ** x` /
`math.log10` are modelled over ℝ.
-/

namespace SmartHome

/-! ## Power model (`IoTSensor.calculate_power_consumption`, src/main.py:425) -/

/-- The per-class power coefficients stored in `IoTSensor.power_specs`
(src/main.py:414): milliwatt draw for each operation kind. -/
structure PowerSpec where
  sensing : ℚ
  communication : ℚ
  processing : ℚ
  sleep : ℚ
deriving DecidableEq

/-- `IoTSensor.calculate_power_consumption(operation_time, operation_type)`
(src/main.py:425-439).  `power` is the sensor's `self.power` dict and
`duty_cycle` its `self.duty_cycle` field.  The source's final `else` branch
returns the plain float `0.0`; the function is total and never raises. -/
def calculate_power_consumption (power : PowerSpec) (duty_cycle : ℚ)
    (operation_time : ℚ) (operation_type : String) : ℚ :=
  if operation_type = "sensing" then
    power.sensing * operation_time * duty_cycle
  else if operation_type = "communication" then
    power.communication * operation_time
  else if operation_type = "processing" then
    power.processing * operation_time
  else if operation_type = "sleep" then
    power.sleep * operation_time * (1 - duty_cycle)
  else
    0

/-- The `'DHT22'` entry of `IoTSensor.power_specs` (src/main.py:415). -/
def dht22Power : PowerSpec :=
  { sensing := 3/2, communication := 15, processing := 4/5, sleep := 1/20 }

/-! ## Distance model (`CommunicationProtocol`, src/main.py:637-735) -/

/-- The static `self.sensor_locations` table (src/main.py:649-658):
room name ↦ `(x, y)` coordinates in meters from the gateway. -/
def sensor_locations (name : String) : Option (ℝ × ℝ) :=
  if name = "Living Room" then some (8, 12)
  else if name = "Master Bedroom" then some (15, 20)
  else if name = "Kitchen" then some (6, 8)
  else if name = "Guest Bedroom" then some (20, 18)
  else if name = "Bathroom" then some (12, 6)
  else if name = "Home Office" then some (25, 15)
  else if name = "Front Door" then some (3, 5)
  else if name = "Back Yard" then some (10, 25)
  else none

/-- `self.gateway_position` (src/main.py:647). -/
def gateway_position : ℝ × ℝ := (0, 0)

/-- `CommunicationProtocol.calculate_distance` (src/main.py:660-671):
Euclidean distance of the named location from the gateway, with the fixed
default `50.0` for an unknown location name. -/
noncomputable def calculate_distance (sensor_location : String) : ℝ :=
  match sensor_locations sensor_location with
  | none => 50
  | some sensor_pos =>
      Real.sqrt ((sensor_pos.1 - gateway_position.1) ^ 2
        + (sensor_pos.2 - gateway_position.2) ^ 2)

/-- `CommunicationProtocol.calculate_transmission_power` (src/main.py:673-701):
`P_min = 50`, `d_ref = 10`, `n = 3`; below the reference distance the power is
`P_min`, otherwise `P_min * 10^((n * log10(d / d_ref)) / 10)` capped at 200. -/
noncomputable def calculate_transmission_power (distance : ℝ) : ℝ :=
  if distance ≤ 10 then 50
  else min (50 * (10 : ℝ) ^ ((3 * Real.logb 10 (distance / 10)) / 10)) 200

/-- Python truthiness of an optional string argument (`if sensor_location:`):
`None` and the empty string are falsy, every other string is truthy. -/
def optTruthy : Option String → Bool
  | none => false
  | some s => !(s = "")

/-- `CommunicationProtocol.calculate_comm_power` (src/main.py:703-735):
`P_tx * t_tx + P_rx * t_rx + P_idle * t_idle` with `P_rx = 50`,
`P_idle = 5`, `t_rx = 0.1 * t_tx`, `t_idle = 0.1`; `P_tx` comes from the
message's location via `if sensor_location:` truthiness, defaulting to `100`
when no (truthy) location is given.  The `message_size` argument is carried
by the source function but never read. -/
noncomputable def calculate_comm_power (message_size : ℕ) (transmission_time : ℝ)
    (sensor_location : Option String) : ℝ :=
  let P_tx : ℝ :=
    if optTruthy sensor_location then
      calculate_transmission_power (calculate_distance (sensor_location.getD ""))
    else 100
  P_tx * transmission_time + 50 * (transmission_time * 0.1) + 5 * 0.1

/-! ## MQTT batching (`MQTTProtocol`, src/main.py:737-869)

The `random.random()` success draws are modelled as an explicit boolean
oracle argument `draw_success`, and the wall clock `time.time()` as an
explicit `current_time` argument.  The stored `payload` dict is only ever
used through its serialized length, which enters as `message_size`. -/

/-- One entry of `self.message_batch` (src/main.py:772-778). -/
structure Msg where
  topic : String
  size : ℕ
  time : ℝ
  location : Option String

/-- The mutable state of one `MQTTProtocol` instance: the pending batch and
its parameters (src/main.py:743-751) plus the channel-wide counters
inherited from `CommunicationProtocol` (src/main.py:640-644). -/
structure MQTTState where
  message_batch : List Msg
  batch_size_limit : ℕ
  batch_timeout : ℝ
  last_batch_time : ℝ
  batch_mode_enabled : Bool
  message_count : ℕ
  total_bytes_sent : ℕ
  retry_count : ℕ

/-- `set(msg['location'] for msg in self.message_batch if msg['location'])`
(src/main.py:794): the distinct truthy locations of the pending batch. -/
def distinct_locations (batch : List Msg) : List String :=
  (batch.filterMap (fun m => if optTruthy m.location then m.location else none)).dedup

/-- The batch power computed on flush before the efficiency discount
(src/main.py:789-801): when the flushing call's own `sensor_location` is
truthy and the batch contains truthy locations, transmission power at the
average distance over the distinct locations times the batch transmission
time `total_size / 1200`; otherwise the size/time-based comm power formula. -/
noncomputable def flush_batch_power (batch : List Msg) (sensor_location : Option String) : ℝ :=
  let total_size := (batch.map Msg.size).sum
  let batch_transmission_time := (total_size : ℝ) / 1200
  let total_locations := distinct_locations batch
  if optTruthy sensor_location ∧ 0 < total_locations.length then
    let avg_distance := (total_locations.map calculate_distance).sum
      / (total_locations.length : ℝ)
    calculate_transmission_power avg_distance * batch_transmission_time
  else
    calculate_comm_power total_size batch_transmission_time sensor_location

/-- The batch power the C4 claim describes, following the spec's words:
the arithmetic mean of `transmissionPower(distance(loc))` over the distinct
locations represented in the batch, multiplied by the batch transmission
time `totalSize / 1200`.  Kept separate from the source-derived
`flush_batch_power` so the two can be compared. -/
noncomputable def c4_claimed_batch_power (batch : List Msg) : ℝ :=
  ((distinct_locations batch).map
      (fun l => calculate_transmission_power (calculate_distance l))).sum
    / ((distinct_locations batch).length : ℝ)
    * (((batch.map Msg.size).sum : ℝ) / 1200)

/-- The queuing charge the C5 claim describes, following the spec's words:
20% of the single-message power formula at the message's own transmission
time.  Kept separate from the source-derived charge
`calculate_comm_power size (time * 0.2) loc` so the two can be compared. -/
noncomputable def c5_claimed_queuing_power (message_size : ℕ) (transmission_time : ℝ)
    (sensor_location : Option String) : ℝ :=
  0.2 * calculate_comm_power message_size transmission_time sensor_location

/-- The flush trigger of `_batch_message` (src/main.py:780-788), phrased on
the state before the append: the batch with the new message appended reaches
the size limit, or the time since the last flush exceeds the timeout. -/
def flush_triggered (st : MQTTState) (current_time : ℝ) : Prop :=
  st.message_batch.length + 1 ≥ st.batch_size_limit
    ∨ current_time - st.last_batch_time > st.batch_timeout

noncomputable instance (st : MQTTState) (current_time : ℝ) :
    Decidable (flush_triggered st current_time) := by
  unfold flush_triggered; infer_instance

/-- `MQTTProtocol._batch_message` (src/main.py:768-831).  Appends the
message, charges the queuing power unconditionally, and when the batch is
full or the timeout elapsed flushes: the whole-batch power is discounted by
`max 0.5 (1 - 0.1 * len)`, multiplied by `1.5` on a failed draw, averaged
over the batch, and the batch is cleared and the flush timer reset
regardless of the draw. -/
noncomputable def batch_message (st : MQTTState) (topic : String) (message_size : ℕ)
    (transmission_time : ℝ) (sensor_location : Option String)
    (current_time : ℝ) (draw_success : Bool) : (Bool × ℝ) × MQTTState :=
  let batch := st.message_batch
    ++ [{ topic := topic, size := message_size, time := transmission_time,
          location := sensor_location }]
  let batch_full := batch.length ≥ st.batch_size_limit
  let timeout_reached := current_time - st.last_batch_time > st.batch_timeout
  let queuing_power := calculate_comm_power message_size (transmission_time * 0.2) sensor_location
  if batch_full ∨ timeout_reached then
    let total_size := (batch.map Msg.size).sum
    let batch_power := flush_batch_power batch sensor_location
    let efficiency_factor := max 0.5 (1 - (batch.length : ℝ) * 0.1)
    let batch_power := batch_power * efficiency_factor
    let success := draw_success
    let batch_power := if success then batch_power else batch_power * 1.5
    let st' : MQTTState :=
      if success then
        { st with
          message_batch := []
          last_batch_time := current_time
          message_count := st.message_count + batch.length
          total_bytes_sent := st.total_bytes_sent + total_size }
      else
        { st with
          message_batch := []
          last_batch_time := current_time
          retry_count := st.retry_count + 1 }
    ((success, queuing_power + batch_power / (max batch.length 1 : ℕ)), st')
  else
    ((true, queuing_power), { st with message_batch := batch })

/-- `MQTTProtocol._publish_single_message` (src/main.py:833-861): success
charges the single-message power and bumps the message/byte counters;
failure charges double and bumps the retry counter. -/
noncomputable def publish_single_message (st : MQTTState) (topic : String)
    (message_size : ℕ) (transmission_time : ℝ) (sensor_location : Option String)
    (draw_success : Bool) : (Bool × ℝ) × MQTTState :=
  if draw_success then
    ((true, calculate_comm_power message_size transmission_time sensor_location),
     { st with
       message_count := st.message_count + 1
       total_bytes_sent := st.total_bytes_sent + message_size })
  else
    ((false, calculate_comm_power message_size transmission_time sensor_location * 2),
     { st with retry_count := st.retry_count + 1 })

/-- `MQTTProtocol.publish_message` (src/main.py:753-766): derives the
transmission time `message_size / 1000` from the serialized payload length
and dispatches on `batch_mode_enabled`. -/
noncomputable def publish_message (st : MQTTState) (topic : String) (message_size : ℕ)
    (sensor_location : Option String) (current_time : ℝ) (draw_success : Bool) :
    (Bool × ℝ) × MQTTState :=
  let transmission_time := (message_size : ℝ) / 1000
  if st.batch_mode_enabled then
    batch_message st topic message_size transmission_time sensor_location
      current_time draw_success
  else
    publish_single_message st topic message_size transmission_time sensor_location
      draw_success

/-- The inputs of one publish call: message descriptor plus the modelled
clock reading and success draw for that call. -/
structure PublishCall where
  topic : String
  message_size : ℕ
  transmission_time : ℝ
  sensor_location : Option String
  current_time : ℝ
  draw_success : Bool

/-- A sequence of batched publish calls, threaded through the state. -/
noncomputable def run_batch (st : MQTTState) (calls : List PublishCall) : MQTTState :=
  calls.foldl
    (fun s c => (batch_message s c.topic c.message_size c.transmission_time
      c.sensor_location c.current_time c.draw_success).2) st

/-- A fresh `MQTTProtocol` state (src/main.py:743-751) with the clock origin
at `0`: empty batch, size limit `5`, timeout `3.0`, batch mode enabled,
all counters zero. -/
def base_state : MQTTState :=
  { message_batch := []
    batch_size_limit := 5
    batch_timeout := 3
    last_batch_time := 0
    batch_mode_enabled := true
    message_count := 0
    total_bytes_sent := 0
    retry_count := 0 }

/-- A concrete pending message located in the Kitchen: 60 serialized bytes,
hence transmission time `60 / 1000`. -/
noncomputable def kitchen_msg : Msg :=
  { topic := "smarthome/Kitchen", size := 60, time := 3/50, location := some "Kitchen" }

/-- A concrete pending message carrying no location: 60 serialized bytes. -/
noncomputable def nolocation_msg : Msg :=
  { topic := "smarthome/misc", size := 60, time := 3/50, location := none }

/-- A state holding the located message with a batch size limit of `2`, so
that the next publish call flushes. -/
noncomputable def c4_state : MQTTState :=
  { base_state with message_batch := [kitchen_msg], batch_size_limit := 2 }

/-! ## Energy optimizer (`EnergyOptimizer`, src/main.py:879-1056)

All arithmetic here is plain rational arithmetic in the source, so it is
modelled over ℚ.  The reading timestamps produced by `datetime.now()` play
no role in any optimizer computation and are omitted from the model. -/

/-- A `SensorReading` (timestamp omitted): id, value, unit and the power
charged for producing it. -/
structure SensorReading where
  sensor_id : String
  value : ℚ
  unit : String
  power_consumed : ℚ
deriving DecidableEq

/-- The slice of an `IoTSensor` the optimizer touches: its mutable
`duty_cycle` and its `power['sensing']` coefficient (used for the power
delta when a sleep level is applied, src/main.py:996). -/
structure Sensor where
  duty_cycle : ℚ
  sensing_power : ℚ
deriving DecidableEq

/-- The mutable `EnergyOptimizer` state (src/main.py:884-897).
`last_sensor_values` models the python dict as an association list; the
optimizer only ever looks values up by key and overwrites them, never
iterates, so insertion order is irrelevant. -/
structure OptimizerState where
  optimization_enabled : Bool
  duty_cycle : ℚ
  aggregation_factor : ℚ
  progressive_sleep : Bool
  inactivity_counter : ℕ
  activity_threshold : ℚ
  last_sensor_values : List (String × ℚ)
  sleep_levels : List ℚ
  current_sleep_level : ℕ
  sleep_level_timeout : ℕ
deriving DecidableEq

/-- Dict lookup `self.last_sensor_values[sensor_id]`. -/
def lookup_value (m : List (String × ℚ)) (k : String) : Option ℚ :=
  (m.find? (fun p => p.1 == k)).map Prod.snd

/-- Dict overwrite `self.last_sensor_values[sensor_id] = v`. -/
def insert_value (m : List (String × ℚ)) (k : String) (v : ℚ) : List (String × ℚ) :=
  (m.filter (fun p => !(p.1 == k))) ++ [(k, v)]

/-- Python's substring test `pat in s`: some suffix of `s` starts with
`pat`. -/
def has_substr (s pat : String) : Bool :=
  s.data.tails.any (fun t => pat.data.isPrefixOf t)

/-- One iteration of the reading loop of `update_sleep_mode`
(src/main.py:955-980), folding `(activity_detected, last_sensor_values)`
over the readings in order.  Motion readings (`'motion' in sensor_id`)
count as activity when positive and skip the stored-value update; other
readings compare against the stored previous value (percent change, with
the `previous = 0` conventions of src/main.py:968-973) and then overwrite
it. -/
def detect_step (threshold : ℚ) (acc : Bool × List (String × ℚ))
    (r : SensorReading) : Bool × List (String × ℚ) :=
  if has_substr r.sensor_id "motion" then
    (acc.1 || decide (0 < r.value), acc.2)
  else
    match lookup_value acc.2 r.sensor_id with
    | some previous_value =>
        let percent_change : ℚ :=
          if previous_value ≠ 0 then |(r.value - previous_value) / previous_value| * 100
          else if r.value ≠ 0 then 100
          else 0
        (acc.1 || decide (threshold < percent_change),
         insert_value acc.2 r.sensor_id r.value)
    | none => (acc.1, insert_value acc.2 r.sensor_id r.value)

/-- The whole reading loop of one `update_sleep_mode` call: the activity
flag and the updated stored values. -/
def detect_activity (st : OptimizerState) (readings : List SensorReading) :
    Bool × List (String × ℚ) :=
  readings.foldl (detect_step st.activity_threshold) (false, st.last_sensor_values)

/-- `sensor.duty_cycle = new_duty_cycle` pushed to every device
(src/main.py:992-994 and 1012-1014). -/
def apply_duty_cycle (sensors : List Sensor) (new_duty_cycle : ℚ) : List Sensor :=
  sensors.map (fun s => { s with duty_cycle := new_duty_cycle })

/-- The summed power delta `(old - new) * sensing * 5` over all devices
(src/main.py:996 and 1016). -/
def sleep_power_delta (sensors : List Sensor) (new_duty_cycle : ℚ) : ℚ :=
  (sensors.map (fun s => (s.duty_cycle - new_duty_cycle) * s.sensing_power * 5)).sum

/-- `EnergyOptimizer.update_sleep_mode` (src/main.py:943-1022), returning
the signed power delta together with the updated optimizer state and device
list.  Out-of-range level indexing (impossible from reachable states) is
modelled with `getD _ 0`. -/
def update_sleep_mode (st : OptimizerState) (sensors : List Sensor)
    (readings : List SensorReading) : ℚ × OptimizerState × List Sensor :=
  if !st.progressive_sleep then (0, st, sensors)
  else
    let ad := detect_activity st readings
    let st0 := { st with last_sensor_values := ad.2 }
    if ad.1 then
      if 0 < st.current_sleep_level then
        let new_duty_cycle := st.sleep_levels.getD 0 0
        (-(sleep_power_delta sensors new_duty_cycle),
         { st0 with
           inactivity_counter := 0
           current_sleep_level := 0 },
         apply_duty_cycle sensors new_duty_cycle)
      else
        (0, { st0 with inactivity_counter := 0 }, sensors)
    else
      let counter := st.inactivity_counter + 1
      if st.sleep_level_timeout ≤ counter then
        if st.current_sleep_level < st.sleep_levels.length - 1 then
          let new_level := st.current_sleep_level + 1
          let new_duty_cycle := st.sleep_levels.getD new_level 0
          (sleep_power_delta sensors new_duty_cycle,
           { st0 with
             inactivity_counter := 0
             current_sleep_level := new_level },
           apply_duty_cycle sensors new_duty_cycle)
        else
          (0, { st0 with inactivity_counter := 0 }, sensors)
      else
        (0, { st0 with inactivity_counter := counter }, sensors)

/-- `sensor_id.split('_')[-1]` (src/main.py:1034): the trailing
underscore-separated suffix of a sensor id, i.e. everything after the last
underscore (the whole id when it has none). -/
def sensor_type_of (sensor_id : String) : String :=
  String.mk ((sensor_id.data.reverse.takeWhile (fun c => c ≠ '_')).reverse)

/-- The keys of the python grouping dict of `aggregate_data`
(src/main.py:1031-1037), in first-occurrence order. -/
def group_keys (readings : List SensorReading) : List String :=
  readings.foldl (fun ks r =>
    if sensor_type_of r.sensor_id ∈ ks then ks
    else ks ++ [sensor_type_of r.sensor_id]) []

/-- The readings of one group, in input order. -/
def group_of (readings : List SensorReading) (k : String) : List SensorReading :=
  readings.filter (fun r => sensor_type_of r.sensor_id == k)

/-- The synthetic reading built for a group of size `> 1`
(src/main.py:1043-1052): id `aggregated_<type>`, the arithmetic mean of the
values, the first member's unit, and the summed power scaled by the
aggregation factor. -/
def aggregated_reading (k : String) (g : List SensorReading)
    (aggregation_factor : ℚ) : SensorReading :=
  { sensor_id := "aggregated_" ++ k
    value := (g.map SensorReading.value).sum / (g.length : ℚ)
    unit := (match g with | [] => "" | r :: _ => r.unit)
    power_consumed := (g.map SensorReading.power_consumed).sum * aggregation_factor }

/-- `EnergyOptimizer.aggregate_data` (src/main.py:1024-1056): no-op unless
optimization is enabled; otherwise each suffix group of size `> 1` collapses
to its synthetic reading and each group of size `1` passes through. -/
def aggregate_data (st : OptimizerState) (readings : List SensorReading) :
    List SensorReading :=
  if !st.optimization_enabled then readings
  else
    ((group_keys readings).map (fun k =>
      if 1 < (group_of readings k).length then
        [aggregated_reading k (group_of readings k) st.aggregation_factor]
      else group_of readings k)).flatten

/-- The `EnergyOptimizer.__init__` defaults (src/main.py:884-897). -/
def default_optimizer : OptimizerState :=
  { optimization_enabled := false
    duty_cycle := 4/5
    aggregation_factor := 7/10
    progressive_sleep := false
    inactivity_counter := 0
    activity_threshold := 5
    last_sensor_values := []
    sleep_levels := [4/5, 3/5, 2/5, 1/5]
    current_sleep_level := 0
    sleep_level_timeout := 5 }

/-- The optimizer with optimization enabled and the default aggregation
factor `0.7`. -/
def c7_scenario_state : OptimizerState :=
  { default_optimizer with optimization_enabled := true }

/-- The three temperature readings of the spec's aggregation scenario, with
concrete powers `1`, `2`, `3`. -/
def c7_readings : List SensorReading :=
  [⟨"s1_temp", 20, "C", 1⟩, ⟨"s2_temp", 22, "C", 2⟩, ⟨"s3_temp", 24, "C", 3⟩]

/-- A sequence of `update_sleep_mode` calls (one per cycle's reading list),
threaded through the optimizer state and the device list. -/
def run_sleep (st : OptimizerState) (sensors : List Sensor)
    (cycles : List (List SensorReading)) : OptimizerState × List Sensor :=
  cycles.foldl (fun p r => (update_sleep_mode p.1 p.2 r).2) (st, sensors)

/-- The state after one inactive cycle below the timeout: stored values
updated, counter incremented, everything else unchanged. -/
def inactive_bump (st : OptimizerState) (readings : List SensorReading) :
    OptimizerState :=
  { st with
    last_sensor_values := (detect_activity st readings).2
    inactivity_counter := st.inactivity_counter + 1 }

end SmartHome

namespace SmartHome

/-- C1 counterexample: at the concrete unknown operation kind `"calibrate"`,
`calculate_power_consumption` returns the ordinary numeric value `0.0`
instead of failing with an `InvalidOperationKind` error signal — the source
has no error path at all (src/main.py:438-439), so the claim is false. -/
theorem c1_unknown_kind_counterexample :
    calculate_power_consumption dht22Power (1/2) 2 "calibrate" = 0 := by
  decide

/-- C1 (amended): for every device profile, duty cycle and duration, an
operation kind other than `"sensing"`, `"communication"`, `"processing"`
or `"sleep"` makes the power model return the ordinary numeric value `0.0`;
no error is signalled. -/
theorem c1_unknown_kind_returns_zero (power : PowerSpec) (duty_cycle : ℚ)
    (operation_time : ℚ) (operation_type : String)
    (h1 : operation_type ≠ "sensing") (h2 : operation_type ≠ "communication")
    (h3 : operation_type ≠ "processing") (h4 : operation_type ≠ "sleep") :
    calculate_power_consumption power duty_cycle operation_time operation_type = 0 := by
  simp [calculate_power_consumption, h1, h2, h3, h4]

/-- C1 witness: the amended theorem applied at a concrete input. -/
theorem c1_unknown_kind_returns_zero_witness :
    calculate_power_consumption dht22Power (3/4) 5 "idle" = 0 :=
  c1_unknown_kind_returns_zero dht22Power (3/4) 5 "idle"
    (by decide) (by decide) (by decide) (by decide)

/-- C2: for every profile with non-negative coefficients, duration `t ≥ 0`
and duty cycle in `[0,1]`, the power model returns exactly
`sensing * t * dutyCycle`, `communication * t` (independent of the duty
cycle), `processing * t` and `sleep * t * (1 - dutyCycle)` for the four
recognised operation kinds; determinism is inherent, the model being a pure
function of its arguments. -/
theorem c2_power_model_formulas (power : PowerSpec) (t duty_cycle : ℚ)
    (hs : 0 ≤ power.sensing) (hc : 0 ≤ power.communication)
    (hp : 0 ≤ power.processing) (hsl : 0 ≤ power.sleep)
    (ht : 0 ≤ t) (hd0 : 0 ≤ duty_cycle) (hd1 : duty_cycle ≤ 1) :
    calculate_power_consumption power duty_cycle t "sensing"
        = power.sensing * t * duty_cycle
    ∧ calculate_power_consumption power duty_cycle t "communication"
        = power.communication * t
    ∧ (∀ other_duty : ℚ, calculate_power_consumption power duty_cycle t "communication"
        = calculate_power_consumption power other_duty t "communication")
    ∧ calculate_power_consumption power duty_cycle t "processing"
        = power.processing * t
    ∧ calculate_power_consumption power duty_cycle t "sleep"
        = power.sleep * t * (1 - duty_cycle) := by
  refine ⟨rfl, rfl, fun other_duty => rfl, rfl, ?_⟩
  simp [calculate_power_consumption]

/-- C2 witness: the formulas instantiated at the DHT22 profile, `t = 2`,
duty cycle `3/4`. -/
theorem c2_power_model_formulas_witness :
    calculate_power_consumption dht22Power (3/4) 2 "sensing" = 3/2 * 2 * (3/4)
    ∧ calculate_power_consumption dht22Power (3/4) 2 "sleep" = 1/20 * 2 * (1 - 3/4) :=
  ⟨(c2_power_model_formulas dht22Power 2 (3/4) (by norm_num [dht22Power])
      (by norm_num [dht22Power]) (by norm_num [dht22Power]) (by norm_num [dht22Power])
      (by norm_num) (by norm_num) (by norm_num)).1,
   (c2_power_model_formulas dht22Power 2 (3/4) (by norm_num [dht22Power])
      (by norm_num [dht22Power]) (by norm_num [dht22Power]) (by norm_num [dht22Power])
      (by norm_num) (by norm_num) (by norm_num)).2.2.2.2⟩

/-- C3: for every distance `d ≥ 0` the transmission power is `50` when
`d ≤ 10`, equals `min (50 * 10^((3 * log10(d/10))/10)) 200` otherwise, is
non-decreasing in the distance beyond the reference distance, and never
exceeds `200`. -/
theorem c3_transmission_power_law (d : ℝ) (hd : 0 ≤ d) :
    (d ≤ 10 → calculate_transmission_power d = 50)
    ∧ (10 < d → calculate_transmission_power d
        = min (50 * (10 : ℝ) ^ ((3 * Real.logb 10 (d / 10)) / 10)) 200)
    ∧ (∀ d2, 10 < d → d ≤ d2 →
        calculate_transmission_power d ≤ calculate_transmission_power d2)
    ∧ calculate_transmission_power d ≤ 200 := by
  refine ⟨fun h => by simp [calculate_transmission_power, h],
          fun h => by simp [calculate_transmission_power, not_le.mpr h], ?_, ?_⟩
  · intro d2 h hle
    have h2 : (10 : ℝ) < d2 := lt_of_lt_of_le h hle
    rw [calculate_transmission_power, calculate_transmission_power,
        if_neg (not_le.mpr h), if_neg (not_le.mpr h2)]
    refine min_le_min ?_ le_rfl
    have hlog : Real.logb 10 (d / 10) ≤ Real.logb 10 (d2 / 10) := by
      have hdpos : (0 : ℝ) < d / 10 := by linarith
      have hdle : d / 10 ≤ d2 / 10 := by linarith
      exact Real.logb_le_logb_of_le (by norm_num) hdpos hdle
    have hexp : (3 * Real.logb 10 (d / 10)) / 10
        ≤ (3 * Real.logb 10 (d2 / 10)) / 10 := by linarith
    have := Real.rpow_le_rpow_of_exponent_le (by norm_num : (1 : ℝ) ≤ 10) hexp
    linarith
  · by_cases h : d ≤ 10
    · rw [calculate_transmission_power, if_pos h]; norm_num
    · rw [calculate_transmission_power, if_neg h]
      exact min_le_right _ _

/-- C3 witness: the law applied at the concrete distance `40`. -/
theorem c3_transmission_power_law_witness :
    ((40 : ℝ) ≤ 10 → calculate_transmission_power 40 = 50)
    ∧ calculate_transmission_power 40 ≤ 200 :=
  ⟨(c3_transmission_power_law 40 (by norm_num)).1,
   (c3_transmission_power_law 40 (by norm_num)).2.2.2⟩

/-- The location table at the Kitchen. -/
lemma sensor_locations_kitchen : sensor_locations "Kitchen" = some (6, 8) := by
  simp [sensor_locations]

/-- The Kitchen at `(6, 8)` is exactly `10` meters from the gateway. -/
lemma calculate_distance_kitchen : calculate_distance "Kitchen" = 10 := by
  have h0 : calculate_distance "Kitchen"
      = Real.sqrt (((6 : ℝ) - 0) ^ 2 + ((8 : ℝ) - 0) ^ 2) := by
    rw [calculate_distance, sensor_locations_kitchen]
    simp [gateway_position]
  rw [h0, show ((6 : ℝ) - 0) ^ 2 + ((8 : ℝ) - 0) ^ 2 = 10 ^ 2 by norm_num,
    Real.sqrt_sq (by norm_num : (0 : ℝ) ≤ 10)]

/-- Transmission power at the reference distance is the minimum power. -/
lemma calculate_transmission_power_ten : calculate_transmission_power 10 = 50 := by
  simp [calculate_transmission_power]

/-- Communication power at a Kitchen-located message of any transmission
time: `50 * t + 50 * (t * 0.1) + 5 * 0.1`. -/
lemma calculate_comm_power_kitchen (message_size : ℕ) (t : ℝ) :
    calculate_comm_power message_size t (some "Kitchen")
      = 50 * t + 50 * (t * 0.1) + 5 * 0.1 := by
  rw [calculate_comm_power]
  simp [optTruthy, calculate_distance_kitchen, calculate_transmission_power_ten]

/-- C5 counterexample: enqueueing a 100-byte Kitchen message into an empty
batch (no flush) charges `1.6` mW, whereas 20% of the single-message power
formula at the same input is `1.2` mW — the source computes the comm power
at 20% of the transmission time, which does not scale the constant idle
term, so the claim's formula disagrees with the code. -/
theorem c5_queuing_power_counterexample :
    (batch_message base_state "smarthome/Kitchen" 100 (1/10) (some "Kitchen") 1 true).1.2
      = 8/5
    ∧ c5_claimed_queuing_power 100 (1/10) (some "Kitchen") = 6/5
    ∧ (batch_message base_state "smarthome/Kitchen" 100 (1/10) (some "Kitchen") 1 true).1.2
      ≠ c5_claimed_queuing_power 100 (1/10) (some "Kitchen") := by
  have h1 : (batch_message base_state "smarthome/Kitchen" 100 (1/10)
      (some "Kitchen") 1 true).1.2 = 8/5 := by
    rw [batch_message]
    rw [if_neg ?hcond]
    case hcond =>
      simp only [base_state, not_or, not_le, not_lt]
      constructor
      · simp
      · norm_num
    rw [calculate_comm_power_kitchen]
    norm_num
  have h2 : c5_claimed_queuing_power 100 (1/10) (some "Kitchen") = 6/5 := by
    rw [c5_claimed_queuing_power, calculate_comm_power_kitchen]
    norm_num
  exact ⟨h1, h2, by rw [h1, h2]; norm_num⟩

/-- C5 (amended): for every state and enqueued message, the publish call's
returned power is the comm-power formula evaluated at 20% of the message's
transmission time (which scales the transmit and receive terms by `0.2` but
keeps the full idle term), charged whether or not the append triggers a
flush; a flush adds the per-message share of the discounted batch power on
top. -/
theorem c5_queuing_power_unconditional (st : MQTTState) (topic : String)
    (message_size : ℕ) (transmission_time : ℝ) (sensor_location : Option String)
    (current_time : ℝ) (draw_success : Bool) :
    (batch_message st topic message_size transmission_time sensor_location
        current_time draw_success).1.2
      = calculate_comm_power message_size (transmission_time * 0.2) sensor_location
        + (if flush_triggered st current_time then
            flush_batch_power
                (st.message_batch
                  ++ [Msg.mk topic message_size transmission_time sensor_location])
                sensor_location
              * max 0.5 (1 - ((st.message_batch.length + 1 : ℕ) : ℝ) * 0.1)
              * (if draw_success then 1 else 1.5)
              / ((max (st.message_batch.length + 1) 1 : ℕ) : ℝ)
          else 0) := by
  rw [batch_message]
  by_cases h : flush_triggered st current_time
  · have hd : st.message_batch.length + 1 ≥ st.batch_size_limit
        ∨ current_time - st.last_batch_time > st.batch_timeout := h
    have h' : (st.message_batch
        ++ [Msg.mk topic message_size transmission_time sensor_location]).length
          ≥ st.batch_size_limit
        ∨ current_time - st.last_batch_time > st.batch_timeout := by
      simpa using hd
    rw [if_pos h', if_pos h]
    simp only [List.length_append, List.length_cons, List.length_nil]
    cases draw_success <;> simp
  · have hd : ¬ (st.message_batch.length + 1 ≥ st.batch_size_limit
        ∨ current_time - st.last_batch_time > st.batch_timeout) := h
    have h' : ¬ ((st.message_batch
        ++ [Msg.mk topic message_size transmission_time sensor_location]).length
          ≥ st.batch_size_limit
        ∨ current_time - st.last_batch_time > st.batch_timeout) := by
      simpa using hd
    rw [if_neg h', if_neg h]
    ring

/-- The distinct truthy locations of the Kitchen/no-location pair. -/
lemma distinct_locations_pair :
    distinct_locations [kitchen_msg, nolocation_msg] = ["Kitchen"] := by
  simp [distinct_locations, kitchen_msg, nolocation_msg, optTruthy]

/-- The total payload size of the Kitchen/no-location pair. -/
lemma pair_total_size : (([kitchen_msg, nolocation_msg]).map Msg.size).sum = 120 := by
  simp [kitchen_msg, nolocation_msg]

/-- C4 counterexample: flushing the batch `[kitchen_msg, nolocation_msg]`
(its pending messages carry the location `"Kitchen"`) with a flush-triggering
call whose own location is `none` makes the source take the size/time-based
fallback, giving a pre-discount batch power of `11` mW, whereas the claim's
locations branch — mean transmission power over the distinct locations times
`totalSize / 1200` — gives `5` mW; the final conjunct shows the flush really
fires at this state. -/
theorem c4_batch_power_counterexample :
    flush_batch_power [kitchen_msg, nolocation_msg] none
      ≠ c4_claimed_batch_power [kitchen_msg, nolocation_msg]
    ∧ flush_batch_power [kitchen_msg, nolocation_msg] none = 11
    ∧ c4_claimed_batch_power [kitchen_msg, nolocation_msg] = 5
    ∧ (batch_message c4_state "smarthome/misc" 60 (3/50) none 1
        true).2.message_batch = [] := by
  have h1 : flush_batch_power [kitchen_msg, nolocation_msg] none = 11 := by
    rw [flush_batch_power, if_neg (by simp [optTruthy])]
    rw [pair_total_size, calculate_comm_power]
    simp [optTruthy]
    norm_num
  have h2 : c4_claimed_batch_power [kitchen_msg, nolocation_msg] = 5 := by
    rw [c4_claimed_batch_power, distinct_locations_pair, pair_total_size]
    simp [calculate_distance_kitchen, calculate_transmission_power_ten]
    norm_num
  have h3 : (batch_message c4_state "smarthome/misc" 60 (3/50) none 1
      true).2.message_batch = [] := by
    rw [batch_message, if_pos (Or.inl (by simp [c4_state, base_state]))]
    simp
  exact ⟨by rw [h1, h2]; norm_num, h1, h2, h3⟩

/-- C4 (amended): the locations branch applies only when the flush-triggering
message itself carries a truthy location and the batch holds at least one
truthy location; the pre-discount batch power is then the transmission power
evaluated at the arithmetic mean of the distances of the distinct locations
(not the mean of the transmission powers), times the batch transmission time
`totalSize / 1200`; in every other case — including flushes whose pending
messages carry locations but whose triggering message does not — the
size/time-based formula at `totalSize` and that time is used. -/
theorem c4_batch_power_avg_distance (batch : List Msg) (sensor_location : Option String) :
    (optTruthy sensor_location = true → distinct_locations batch ≠ [] →
      flush_batch_power batch sensor_location
        = calculate_transmission_power
            (((distinct_locations batch).map calculate_distance).sum
              / ((distinct_locations batch).length : ℝ))
          * (((batch.map Msg.size).sum : ℝ) / 1200))
    ∧ (optTruthy sensor_location = false ∨ distinct_locations batch = [] →
      flush_batch_power batch sensor_location
        = calculate_comm_power ((batch.map Msg.size).sum)
            (((batch.map Msg.size).sum : ℝ) / 1200) sensor_location) := by
  constructor
  · intro h1 h2
    rw [flush_batch_power,
      if_pos ⟨h1, List.length_pos.mpr h2⟩]
  · intro h
    rw [flush_batch_power, if_neg ?hneg]
    case hneg =>
      rintro ⟨ha, hb⟩
      rcases h with hf | he
      · rw [hf] at ha; exact Bool.false_ne_true ha
      · rw [he] at hb; simp at hb

/-- C4 witness: the amended locations branch at the singleton Kitchen batch
flushed by a Kitchen-located call. -/
theorem c4_batch_power_avg_distance_witness :
    optTruthy (some "Kitchen") = true
    ∧ distinct_locations [kitchen_msg] ≠ []
    ∧ flush_batch_power [kitchen_msg] (some "Kitchen")
        = calculate_transmission_power
            (((distinct_locations [kitchen_msg]).map calculate_distance).sum
              / ((distinct_locations [kitchen_msg]).length : ℝ))
          * ((([kitchen_msg].map Msg.size).sum : ℝ) / 1200) :=
  ⟨rfl, by simp [distinct_locations, kitchen_msg, optTruthy],
   (c4_batch_power_avg_distance [kitchen_msg] (some "Kitchen")).1 rfl
     (by simp [distinct_locations, kitchen_msg, optTruthy])⟩

/-- C10: with batch mode enabled, a publish call that neither fills the
batch nor hits the timeout returns `success = true` with only the queuing
power charge — the message has not been transmitted, it is merely appended
to the batch — and the channel counters (message count, bytes sent, retry
count) are unchanged. -/
theorem c10_nonflush_publish_success (st : MQTTState) (topic : String)
    (message_size : ℕ) (sensor_location : Option String) (current_time : ℝ)
    (draw_success : Bool)
    (hmode : st.batch_mode_enabled = true)
    (hlen : st.message_batch.length + 1 < st.batch_size_limit)
    (ht : current_time - st.last_batch_time ≤ st.batch_timeout) :
    (publish_message st topic message_size sensor_location current_time draw_success).1
      = (true, calculate_comm_power message_size
          (((message_size : ℝ) / 1000) * 0.2) sensor_location)
    ∧ (publish_message st topic message_size sensor_location current_time
        draw_success).2.message_batch
      = st.message_batch
        ++ [Msg.mk topic message_size ((message_size : ℝ) / 1000) sensor_location]
    ∧ (publish_message st topic message_size sensor_location current_time
        draw_success).2.message_count = st.message_count
    ∧ (publish_message st topic message_size sensor_location current_time
        draw_success).2.total_bytes_sent = st.total_bytes_sent
    ∧ (publish_message st topic message_size sensor_location current_time
        draw_success).2.retry_count = st.retry_count := by
  have hnot : ¬ ((st.message_batch
      ++ [Msg.mk topic message_size ((message_size : ℝ) / 1000) sensor_location]).length
        ≥ st.batch_size_limit
      ∨ current_time - st.last_batch_time > st.batch_timeout) := by
    simp only [List.length_append, List.length_cons, List.length_nil, not_or,
      not_le, not_lt]
    exact ⟨by omega, ht⟩
  have hres : publish_message st topic message_size sensor_location current_time
        draw_success
      = ((true, calculate_comm_power message_size
            (((message_size : ℝ) / 1000) * 0.2) sensor_location),
         { st with message_batch := st.message_batch
            ++ [Msg.mk topic message_size ((message_size : ℝ) / 1000) sensor_location] }) := by
    rw [publish_message]
    simp only [hmode, if_true]
    rw [batch_message, if_neg hnot]
    simp [hmode]
  rw [hres]
  exact ⟨rfl, rfl, rfl, rfl, rfl⟩

/-- One batched publish call preserves `length < limit`, keeps the size
limit, and on a flush leaves the batch empty with the flush timer reset to
the call's clock reading, for both draw outcomes. -/
lemma batch_message_step_inv (st : MQTTState) (topic : String) (message_size : ℕ)
    (transmission_time : ℝ) (sensor_location : Option String) (current_time : ℝ)
    (draw_success : Bool) (h : st.message_batch.length < st.batch_size_limit) :
    (batch_message st topic message_size transmission_time sensor_location
        current_time draw_success).2.message_batch.length
      < (batch_message st topic message_size transmission_time sensor_location
          current_time draw_success).2.batch_size_limit
    ∧ (batch_message st topic message_size transmission_time sensor_location
        current_time draw_success).2.batch_size_limit = st.batch_size_limit
    ∧ (flush_triggered st current_time →
        (batch_message st topic message_size transmission_time sensor_location
            current_time draw_success).2.message_batch = []
        ∧ (batch_message st topic message_size transmission_time sensor_location
            current_time draw_success).2.last_batch_time = current_time) := by
  rw [batch_message]
  by_cases hf : flush_triggered st current_time
  · have hd : st.message_batch.length + 1 ≥ st.batch_size_limit
        ∨ current_time - st.last_batch_time > st.batch_timeout := hf
    have h' : (st.message_batch
        ++ [Msg.mk topic message_size transmission_time sensor_location]).length
          ≥ st.batch_size_limit
        ∨ current_time - st.last_batch_time > st.batch_timeout := by
      simpa using hd
    rw [if_pos h']
    cases draw_success
    · exact ⟨by simp; omega, by simp, fun _ => ⟨by simp, by simp⟩⟩
    · exact ⟨by simp; omega, by simp, fun _ => ⟨by simp, by simp⟩⟩
  · have hd : ¬ (st.message_batch.length + 1 ≥ st.batch_size_limit
        ∨ current_time - st.last_batch_time > st.batch_timeout) := hf
    have h' : ¬ ((st.message_batch
        ++ [Msg.mk topic message_size transmission_time sensor_location]).length
          ≥ st.batch_size_limit
        ∨ current_time - st.last_batch_time > st.batch_timeout) := by
      simpa using hd
    rw [if_neg h']
    have hlt : st.message_batch.length + 1 < st.batch_size_limit := by
      have := fun hge => hd (Or.inl hge)
      omega
    exact ⟨by simp; omega, by simp, fun hc => absurd hc hf⟩

/-- Running any sequence of batched publish calls preserves
`length < limit`. -/
lemma run_batch_inv (calls : List PublishCall) :
    ∀ st : MQTTState, st.message_batch.length < st.batch_size_limit →
      (run_batch st calls).message_batch.length
        < (run_batch st calls).batch_size_limit := by
  induction calls with
  | nil => intro st h; simpa [run_batch] using h
  | cons c cs ih =>
      intro st h
      simp only [run_batch, List.foldl_cons]
      exact ih _ (batch_message_step_inv st c.topic c.message_size
        c.transmission_time c.sensor_location c.current_time c.draw_success h).1

/-- C6: with batch mode parameters fixed and the batch strictly below its
size limit (as every reachable state is, starting from the empty batch),
every publish call holds at most `batch_size_limit` messages at the instant
a flush fires; a flushing call leaves the batch empty with `last_batch_time`
set to the call's clock reading, for success and failure draws alike; and
the sub-limit invariant is preserved by every sequence of publish calls. -/
theorem c6_batch_flush_clears (st : MQTTState)
    (hinv : st.message_batch.length < st.batch_size_limit) :
    (∀ (topic : String) (message_size : ℕ) (transmission_time : ℝ)
        (sensor_location : Option String) (current_time : ℝ) (draw_success : Bool),
      st.message_batch.length + 1 ≤ st.batch_size_limit
      ∧ (flush_triggered st current_time →
          (batch_message st topic message_size transmission_time sensor_location
              current_time draw_success).2.message_batch = []
          ∧ (batch_message st topic message_size transmission_time sensor_location
              current_time draw_success).2.last_batch_time = current_time)
      ∧ (batch_message st topic message_size transmission_time sensor_location
          current_time draw_success).2.message_batch.length
          < (batch_message st topic message_size transmission_time sensor_location
              current_time draw_success).2.batch_size_limit)
    ∧ ∀ calls : List PublishCall,
        (run_batch st calls).message_batch.length
          < (run_batch st calls).batch_size_limit := by
  refine ⟨fun topic message_size transmission_time sensor_location current_time
    draw_success => ?_, fun calls => run_batch_inv calls st hinv⟩
  obtain ⟨h1, h2, h3⟩ := batch_message_step_inv st topic message_size
    transmission_time sensor_location current_time draw_success hinv
  exact ⟨by omega, h3, h1⟩

/-- C6 witness: the invariants instantiated at a fresh state and a concrete
one-call sequence. -/
theorem c6_batch_flush_clears_witness :
    base_state.message_batch.length < base_state.batch_size_limit
    ∧ (run_batch base_state
        [⟨"smarthome/Kitchen", 100, 1/10, some "Kitchen", 1, true⟩]).message_batch.length
      < (run_batch base_state
          [⟨"smarthome/Kitchen", 100, 1/10, some "Kitchen", 1, true⟩]).batch_size_limit :=
  ⟨by simp [base_state],
   (c6_batch_flush_clears base_state (by simp [base_state])).2
     [⟨"smarthome/Kitchen", 100, 1/10, some "Kitchen", 1, true⟩]⟩

/-- C10 witness: a 100-byte Kitchen message published into a fresh state at
time `1` is appended, reported successful, and changes no counter. -/
theorem c10_nonflush_publish_success_witness :
    (publish_message base_state "smarthome/Kitchen" 100 (some "Kitchen") 1 true).1
      = (true, calculate_comm_power 100 (((100 : ℕ) : ℝ) / 1000 * 0.2) (some "Kitchen"))
    ∧ (publish_message base_state "smarthome/Kitchen" 100 (some "Kitchen") 1
        true).2.message_count = base_state.message_count :=
  ⟨(c10_nonflush_publish_success base_state "smarthome/Kitchen" 100 (some "Kitchen")
      1 true rfl (by norm_num [base_state]) (by norm_num [base_state])).1,
   (c10_nonflush_publish_success base_state "smarthome/Kitchen" 100 (some "Kitchen")
      1 true rfl (by norm_num [base_state]) (by norm_num [base_state])).2.2.1⟩

/-- Folding the key-collection step over the readings keeps every key that
was already collected and collects the suffix of every remaining reading. -/
lemma mem_group_keys_go (rs : List SensorReading) :
    ∀ (ks : List String) (t : String),
      (t ∈ ks ∨ t ∈ rs.map (fun r => sensor_type_of r.sensor_id)) →
      t ∈ rs.foldl (fun ks r =>
        if sensor_type_of r.sensor_id ∈ ks then ks
        else ks ++ [sensor_type_of r.sensor_id]) ks := by
  induction rs with
  | nil =>
      intro ks t h
      simpa using h.resolve_right (by simp)
  | cons r rs ih =>
      intro ks t h
      simp only [List.foldl_cons]
      apply ih
      simp only [List.map_cons, List.mem_cons] at h
      by_cases hc : sensor_type_of r.sensor_id ∈ ks
      · rw [if_pos hc]
        rcases h with h | h | h
        · exact Or.inl h
        · exact Or.inl (h ▸ hc)
        · exact Or.inr h
      · rw [if_neg hc]
        rcases h with h | h | h
        · exact Or.inl (List.mem_append_left _ h)
        · exact Or.inl (List.mem_append_right _ (by simp [h]))
        · exact Or.inr h

/-- Every reading's suffix is a collected group key. -/
lemma sensor_type_mem_group_keys {readings : List SensorReading}
    {r : SensorReading} (hr : r ∈ readings) :
    sensor_type_of r.sensor_id ∈ group_keys readings := by
  rw [group_keys]
  exact mem_group_keys_go readings [] _ (Or.inr (List.mem_map_of_mem _ hr))

/-- The scenario readings form the single group `"temp"`. -/
lemma c7_groups_eval :
    group_keys c7_readings = ["temp"] ∧ group_of c7_readings "temp" = c7_readings := by
  constructor <;> decide

/-- C7: with aggregation enabled, the output is exactly the concatenation,
over the suffix groups in first-occurrence order, of the single-member
groups unchanged and one synthetic `aggregated_<type>` reading (mean value,
summed power scaled by the aggregation factor) per larger group; moreover
three temp readings with values `20`, `22`, `24` and powers `1`, `2`, `3`
under factor `0.7` aggregate to the single reading with value `22` and
power `(1+2+3) * 0.7`. -/
theorem c7_aggregation (st : OptimizerState) (readings : List SensorReading)
    (he : st.optimization_enabled = true) :
    aggregate_data st readings
      = ((group_keys readings).map (fun k =>
          if 1 < (group_of readings k).length then
            [aggregated_reading k (group_of readings k) st.aggregation_factor]
          else group_of readings k)).flatten
    ∧ (∀ r ∈ readings, (group_of readings (sensor_type_of r.sensor_id)).length = 1 →
        r ∈ aggregate_data st readings)
    ∧ (∀ k ∈ group_keys readings, 1 < (group_of readings k).length →
        aggregated_reading k (group_of readings k) st.aggregation_factor
          ∈ aggregate_data st readings)
    ∧ aggregate_data c7_scenario_state c7_readings
      = [⟨"aggregated_temp", 22, "C", (1 + 2 + 3) * (7/10)⟩] := by
  have hform : aggregate_data st readings
      = ((group_keys readings).map (fun k =>
          if 1 < (group_of readings k).length then
            [aggregated_reading k (group_of readings k) st.aggregation_factor]
          else group_of readings k)).flatten := by
    rw [aggregate_data, he]
    simp
  refine ⟨hform, ?_, ?_, ?_⟩
  · intro r hr hlen
    rw [hform]
    apply List.mem_flatten.mpr
    refine ⟨group_of readings (sensor_type_of r.sensor_id), ?_, ?_⟩
    · have := List.mem_map_of_mem (fun k =>
        if 1 < (group_of readings k).length then
          [aggregated_reading k (group_of readings k) st.aggregation_factor]
        else group_of readings k) (sensor_type_mem_group_keys hr)
      simpa [hlen] using this
    · rw [group_of]
      exact List.mem_filter.mpr ⟨hr, by simp⟩
  · intro k hk hlen
    rw [hform]
    apply List.mem_flatten.mpr
    refine ⟨[aggregated_reading k (group_of readings k) st.aggregation_factor], ?_, ?_⟩
    · have := List.mem_map_of_mem (fun k =>
        if 1 < (group_of readings k).length then
          [aggregated_reading k (group_of readings k) st.aggregation_factor]
        else group_of readings k) hk
      simpa [hlen] using this
    · exact List.mem_singleton.mpr rfl
  · have hkeys := c7_groups_eval.1
    have hgrp := c7_groups_eval.2
    rw [aggregate_data, show c7_scenario_state.optimization_enabled = true from rfl]
    simp only [Bool.not_true, if_false, hkeys, List.map_cons, List.map_nil, hgrp]
    rw [show c7_readings.length = 3 from rfl]
    simp only [show (1 < 3) = True by simp, if_true]
    simp only [List.flatten]
    simp [aggregated_reading, c7_readings, c7_scenario_state, default_optimizer]
    norm_num

/-- C7 witness: the characterization applied at the scenario state and
readings. -/
theorem c7_aggregation_witness :
    c7_scenario_state.optimization_enabled = true
    ∧ aggregate_data c7_scenario_state c7_readings
      = [⟨"aggregated_temp", 22, "C", (1 + 2 + 3) * (7/10)⟩] :=
  ⟨rfl, (c7_aggregation c7_scenario_state c7_readings rfl).2.2.2⟩

/-- `update_sleep_mode` is the identity when progressive sleep is off. -/
lemma update_sleep_mode_off (st : OptimizerState) (sensors : List Sensor)
    (readings : List SensorReading) (hp : st.progressive_sleep = false) :
    update_sleep_mode st sensors readings = (0, st, sensors) := by
  rw [update_sleep_mode]
  simp [hp]

/-- The activity branch from a deepened level: jump to level 0, reset the
counter, push the level-0 duty cycle, and record the negative delta. -/
lemma update_sleep_mode_activity_pos (st : OptimizerState) (sensors : List Sensor)
    (readings : List SensorReading) (hp : st.progressive_sleep = true)
    (ha : (detect_activity st readings).1 = true)
    (hl : 0 < st.current_sleep_level) :
    update_sleep_mode st sensors readings
      = (-(sleep_power_delta sensors (st.sleep_levels.getD 0 0)),
         { st with
           last_sensor_values := (detect_activity st readings).2
           inactivity_counter := 0
           current_sleep_level := 0 },
         apply_duty_cycle sensors (st.sleep_levels.getD 0 0)) := by
  rw [update_sleep_mode]
  simp [hp, ha, hl]

/-- The activity branch at level 0: only the counter resets. -/
lemma update_sleep_mode_activity_zero (st : OptimizerState) (sensors : List Sensor)
    (readings : List SensorReading) (hp : st.progressive_sleep = true)
    (ha : (detect_activity st readings).1 = true)
    (hl : st.current_sleep_level = 0) :
    update_sleep_mode st sensors readings
      = (0,
         { st with
           last_sensor_values := (detect_activity st readings).2
           inactivity_counter := 0 },
         sensors) := by
  rw [update_sleep_mode]
  simp [hp, ha, hl]

/-- The inactive branch below the timeout: the counter just increments. -/
lemma update_sleep_mode_inactive_small (st : OptimizerState) (sensors : List Sensor)
    (readings : List SensorReading) (hp : st.progressive_sleep = true)
    (ha : (detect_activity st readings).1 = false)
    (hc : st.inactivity_counter + 1 < st.sleep_level_timeout) :
    update_sleep_mode st sensors readings
      = (0,
         { st with
           last_sensor_values := (detect_activity st readings).2
           inactivity_counter := st.inactivity_counter + 1 },
         sensors) := by
  rw [update_sleep_mode]
  simp [hp, ha, Nat.not_le.mpr hc]

/-- The inactive branch reaching the timeout below the deepest level:
advance one level, apply its duty cycle, reset the counter. -/
lemma update_sleep_mode_inactive_advance (st : OptimizerState) (sensors : List Sensor)
    (readings : List SensorReading) (hp : st.progressive_sleep = true)
    (ha : (detect_activity st readings).1 = false)
    (hc : st.sleep_level_timeout ≤ st.inactivity_counter + 1)
    (hadv : st.current_sleep_level < st.sleep_levels.length - 1) :
    update_sleep_mode st sensors readings
      = (sleep_power_delta sensors (st.sleep_levels.getD (st.current_sleep_level + 1) 0),
         { st with
           last_sensor_values := (detect_activity st readings).2
           inactivity_counter := 0
           current_sleep_level := st.current_sleep_level + 1 },
         apply_duty_cycle sensors (st.sleep_levels.getD (st.current_sleep_level + 1) 0)) := by
  rw [update_sleep_mode]
  simp [hp, ha, hc, hadv]

/-- The inactive branch reaching the timeout at the deepest level: only the
counter resets. -/
lemma update_sleep_mode_inactive_deepest (st : OptimizerState) (sensors : List Sensor)
    (readings : List SensorReading) (hp : st.progressive_sleep = true)
    (ha : (detect_activity st readings).1 = false)
    (hc : st.sleep_level_timeout ≤ st.inactivity_counter + 1)
    (hadv : ¬ st.current_sleep_level < st.sleep_levels.length - 1) :
    update_sleep_mode st sensors readings
      = (0,
         { st with
           last_sensor_values := (detect_activity st readings).2
           inactivity_counter := 0 },
         sensors) := by
  rw [update_sleep_mode]
  simp [hp, ha, hc, hadv]

/-- C8: from any state whose sleep level index is in range, a call to
`update_sleep_mode` leaves the index in `[0, len(sleep_levels) - 1]` (with
the level list itself unchanged); and with progressive sleep enabled, a call
in whose cycle activity is detected leaves the index at `0` and the
inactivity counter at `0`. -/
theorem c8_sleep_level_bounds (st : OptimizerState) (sensors : List Sensor)
    (readings : List SensorReading)
    (hlen : st.current_sleep_level < st.sleep_levels.length) :
    (update_sleep_mode st sensors readings).2.1.current_sleep_level
      < (update_sleep_mode st sensors readings).2.1.sleep_levels.length
    ∧ (update_sleep_mode st sensors readings).2.1.sleep_levels = st.sleep_levels
    ∧ (st.progressive_sleep = true →
        (detect_activity st readings).1 = true →
        (update_sleep_mode st sensors readings).2.1.current_sleep_level = 0
        ∧ (update_sleep_mode st sensors readings).2.1.inactivity_counter = 0) := by
  by_cases hp : st.progressive_sleep = true
  · by_cases ha : (detect_activity st readings).1 = true
    · by_cases hl : 0 < st.current_sleep_level
      · rw [update_sleep_mode_activity_pos st sensors readings hp ha hl]
        exact ⟨by simpa using Nat.lt_of_le_of_lt (Nat.zero_le _) hlen, rfl,
          fun _ _ => ⟨rfl, rfl⟩⟩
      · rw [update_sleep_mode_activity_zero st sensors readings hp ha (by omega)]
        exact ⟨hlen, rfl, fun _ _ =>
          ⟨by show st.current_sleep_level = 0; omega, rfl⟩⟩
    · have ha' : (detect_activity st readings).1 = false := by simpa using ha
      by_cases hc : st.sleep_level_timeout ≤ st.inactivity_counter + 1
      · by_cases hadv : st.current_sleep_level < st.sleep_levels.length - 1
        · rw [update_sleep_mode_inactive_advance st sensors readings hp ha' hc hadv]
          exact ⟨by simp; omega, rfl, fun _ hact => absurd hact ha⟩
        · rw [update_sleep_mode_inactive_deepest st sensors readings hp ha' hc hadv]
          exact ⟨hlen, rfl, fun _ hact => absurd hact ha⟩
      · rw [update_sleep_mode_inactive_small st sensors readings hp ha' (by omega)]
        exact ⟨hlen, rfl, fun _ hact => absurd hact ha⟩
  · have hp' : st.progressive_sleep = false := by simpa using hp
    rw [update_sleep_mode_off st sensors readings hp']
    exact ⟨hlen, rfl, fun hps _ => absurd hps hp⟩

/-- C8 witness: a motion reading with a positive value at a deepened default
state resets level and counter to `0`. -/
theorem c8_sleep_level_bounds_witness :
    ({ default_optimizer with
        progressive_sleep := true
        current_sleep_level := 2 } : OptimizerState).current_sleep_level
      < ({ default_optimizer with
            progressive_sleep := true
            current_sleep_level := 2 } : OptimizerState).sleep_levels.length
    ∧ (update_sleep_mode
        { default_optimizer with
          progressive_sleep := true
          current_sleep_level := 2 }
        [⟨1, 3/2⟩] [⟨"m1_motion", 1, "", 1⟩]).2.1.current_sleep_level = 0
    ∧ (update_sleep_mode
        { default_optimizer with
          progressive_sleep := true
          current_sleep_level := 2 }
        [⟨1, 3/2⟩] [⟨"m1_motion", 1, "", 1⟩]).2.1.inactivity_counter = 0 :=
  ⟨by simp [default_optimizer],
   (c8_sleep_level_bounds
      { default_optimizer with progressive_sleep := true, current_sleep_level := 2 }
      [⟨1, 3/2⟩] [⟨"m1_motion", 1, "", 1⟩]
      (by simp [default_optimizer])).2.2 rfl
     (by decide) |>.1,
   (c8_sleep_level_bounds
      { default_optimizer with progressive_sleep := true, current_sleep_level := 2 }
      [⟨1, 3/2⟩] [⟨"m1_motion", 1, "", 1⟩]
      (by simp [default_optimizer])).2.2 rfl
     (by decide) |>.2⟩

/-- Unfolding one call of a `run_sleep` sequence. -/
lemma run_sleep_cons (st : OptimizerState) (sensors : List Sensor)
    (r : List SensorReading) (rs : List (List SensorReading)) :
    run_sleep st sensors (r :: rs)
      = run_sleep (update_sleep_mode st sensors r).2.1
          (update_sleep_mode st sensors r).2.2 rs := by
  simp [run_sleep]

/-- One inactive cycle below the timeout inside a sequence just bumps the
counter. -/
lemma run_sleep_inactive_step (st : OptimizerState) (sensors : List Sensor)
    (r : List SensorReading) (rs : List (List SensorReading))
    (hp : st.progressive_sleep = true)
    (ha : (detect_activity st r).1 = false)
    (hc : st.inactivity_counter + 1 < st.sleep_level_timeout) :
    run_sleep st sensors (r :: rs) = run_sleep (inactive_bump st r) sensors rs := by
  rw [run_sleep_cons, update_sleep_mode_inactive_small st sensors r hp ha hc]
  rfl

/-- Every device coming out of `apply_duty_cycle` carries the applied duty
cycle. -/
lemma apply_duty_cycle_mem (sensors : List Sensor) (v : ℚ) :
    ∀ s ∈ apply_duty_cycle sensors v, s.duty_cycle = v := by
  intro s hs
  simp only [apply_duty_cycle, List.mem_map] at hs
  obtain ⟨a, _, rfl⟩ := hs
  rfl

/-- C9: with progressive sleep enabled, timeout `5`, level `0` and counter
`0`, five consecutive calls in none of which activity is detected leave the
level at `0` through the first four calls and advance it to `1` exactly once
on the fifth, which applies the level-1 duty cycle to every device and
resets the counter to `0`. -/
theorem c9_five_inactive_cycles (st : OptimizerState) (sensors : List Sensor)
    (r1 r2 r3 r4 r5 : List SensorReading)
    (hp : st.progressive_sleep = true)
    (hto : st.sleep_level_timeout = 5)
    (hlev : st.current_sleep_level = 0)
    (hctr : st.inactivity_counter = 0)
    (hlvls : 2 ≤ st.sleep_levels.length)
    (h1 : (detect_activity (run_sleep st sensors []).1 r1).1 = false)
    (h2 : (detect_activity (run_sleep st sensors [r1]).1 r2).1 = false)
    (h3 : (detect_activity (run_sleep st sensors [r1, r2]).1 r3).1 = false)
    (h4 : (detect_activity (run_sleep st sensors [r1, r2, r3]).1 r4).1 = false)
    (h5 : (detect_activity (run_sleep st sensors [r1, r2, r3, r4]).1 r5).1 = false) :
    (run_sleep st sensors [r1, r2, r3, r4]).1.current_sleep_level = 0
    ∧ (run_sleep st sensors [r1, r2, r3, r4, r5]).1.current_sleep_level = 1
    ∧ (run_sleep st sensors [r1, r2, r3, r4, r5]).1.inactivity_counter = 0
    ∧ (run_sleep st sensors [r1, r2, r3, r4, r5]).2
        = apply_duty_cycle sensors (st.sleep_levels.getD 1 0)
    ∧ ∀ s ∈ (run_sleep st sensors [r1, r2, r3, r4, r5]).2,
        s.duty_cycle = st.sleep_levels.getD 1 0 := by
  have h1s : (detect_activity st r1).1 = false := h1
  have hc1 : st.inactivity_counter + 1 < st.sleep_level_timeout := by omega
  have E1 : run_sleep st sensors [r1] = (inactive_bump st r1, sensors) := by
    rw [run_sleep_inactive_step st sensors r1 [] hp h1s hc1]
    rfl
  have h2s : (detect_activity (inactive_bump st r1) r2).1 = false := by
    have h := h2; rw [E1] at h; exact h
  have hc2 : (inactive_bump st r1).inactivity_counter + 1
      < (inactive_bump st r1).sleep_level_timeout := by
    show st.inactivity_counter + 1 + 1 < st.sleep_level_timeout
    omega
  have hp2 : (inactive_bump st r1).progressive_sleep = true := hp
  have E2 : run_sleep st sensors [r1, r2]
      = (inactive_bump (inactive_bump st r1) r2, sensors) := by
    rw [run_sleep_inactive_step st sensors r1 [r2] hp h1s hc1,
      run_sleep_inactive_step (inactive_bump st r1) sensors r2 [] hp2 h2s hc2]
    rfl
  have h3s : (detect_activity (inactive_bump (inactive_bump st r1) r2) r3).1
      = false := by
    have h := h3; rw [E2] at h; exact h
  have hc3 : (inactive_bump (inactive_bump st r1) r2).inactivity_counter + 1
      < (inactive_bump (inactive_bump st r1) r2).sleep_level_timeout := by
    show st.inactivity_counter + 1 + 1 + 1 < st.sleep_level_timeout
    omega
  have hp3 : (inactive_bump (inactive_bump st r1) r2).progressive_sleep = true := hp
  have E3 : run_sleep st sensors [r1, r2, r3]
      = (inactive_bump (inactive_bump (inactive_bump st r1) r2) r3, sensors) := by
    rw [run_sleep_inactive_step st sensors r1 [r2, r3] hp h1s hc1,
      run_sleep_inactive_step (inactive_bump st r1) sensors r2 [r3] hp2 h2s hc2,
      run_sleep_inactive_step (inactive_bump (inactive_bump st r1) r2) sensors r3 []
        hp3 h3s hc3]
    rfl
  have h4s : (detect_activity
      (inactive_bump (inactive_bump (inactive_bump st r1) r2) r3) r4).1 = false := by
    have h := h4; rw [E3] at h; exact h
  have hc4 : (inactive_bump (inactive_bump (inactive_bump st r1) r2)
        r3).inactivity_counter + 1
      < (inactive_bump (inactive_bump (inactive_bump st r1) r2)
          r3).sleep_level_timeout := by
    show st.inactivity_counter + 1 + 1 + 1 + 1 < st.sleep_level_timeout
    omega
  have hp4 : (inactive_bump (inactive_bump (inactive_bump st r1) r2)
      r3).progressive_sleep = true := hp
  have E4 : run_sleep st sensors [r1, r2, r3, r4]
      = (inactive_bump (inactive_bump (inactive_bump (inactive_bump st r1) r2) r3) r4,
         sensors) := by
    rw [run_sleep_inactive_step st sensors r1 [r2, r3, r4] hp h1s hc1,
      run_sleep_inactive_step (inactive_bump st r1) sensors r2 [r3, r4] hp2 h2s hc2,
      run_sleep_inactive_step (inactive_bump (inactive_bump st r1) r2) sensors r3 [r4]
        hp3 h3s hc3,
      run_sleep_inactive_step
        (inactive_bump (inactive_bump (inactive_bump st r1) r2) r3) sensors r4 []
        hp4 h4s hc4]
    rfl
  have h5s : (detect_activity
      (inactive_bump (inactive_bump (inactive_bump (inactive_bump st r1) r2) r3) r4)
      r5).1 = false := by
    have h := h5; rw [E4] at h; exact h
  have hp5 : (inactive_bump (inactive_bump (inactive_bump (inactive_bump st r1) r2)
      r3) r4).progressive_sleep = true := hp
  have hc5 : (inactive_bump (inactive_bump (inactive_bump (inactive_bump st r1) r2)
        r3) r4).sleep_level_timeout
      ≤ (inactive_bump (inactive_bump (inactive_bump (inactive_bump st r1) r2)
          r3) r4).inactivity_counter + 1 := by
    show st.sleep_level_timeout ≤ st.inactivity_counter + 1 + 1 + 1 + 1 + 1
    omega
  have hadv : (inactive_bump (inactive_bump (inactive_bump (inactive_bump st r1) r2)
        r3) r4).current_sleep_level
      < (inactive_bump (inactive_bump (inactive_bump (inactive_bump st r1) r2)
          r3) r4).sleep_levels.length - 1 := by
    show st.current_sleep_level < st.sleep_levels.length - 1
    omega
  have E5 : run_sleep st sensors [r1, r2, r3, r4, r5]
      = ((update_sleep_mode
          (inactive_bump (inactive_bump (inactive_bump (inactive_bump st r1) r2) r3)
            r4) sensors r5).2.1,
         (update_sleep_mode
          (inactive_bump (inactive_bump (inactive_bump (inactive_bump st r1) r2) r3)
            r4) sensors r5).2.2) := by
    rw [run_sleep_inactive_step st sensors r1 [r2, r3, r4, r5] hp h1s hc1,
      run_sleep_inactive_step (inactive_bump st r1) sensors r2 [r3, r4, r5] hp2 h2s hc2,
      run_sleep_inactive_step (inactive_bump (inactive_bump st r1) r2) sensors r3
        [r4, r5] hp3 h3s hc3,
      run_sleep_inactive_step
        (inactive_bump (inactive_bump (inactive_bump st r1) r2) r3) sensors r4 [r5]
        hp4 h4s hc4,
      run_sleep_cons]
    rfl
  rw [update_sleep_mode_inactive_advance
    (inactive_bump (inactive_bump (inactive_bump (inactive_bump st r1) r2) r3) r4)
    sensors r5 hp5 h5s hc5 hadv] at E5
  refine ⟨?_, ?_, ?_, ?_, ?_⟩
  · rw [E4]; exact hlev
  · rw [E5]
    show st.current_sleep_level + 1 = 1
    omega
  · rw [E5]
  · rw [E5]
    show apply_duty_cycle sensors
        (st.sleep_levels.getD (st.current_sleep_level + 1) 0)
      = apply_duty_cycle sensors (st.sleep_levels.getD 1 0)
    rw [hlev]
  · rw [E5]
    intro s hs
    have hmem := apply_duty_cycle_mem sensors
      (st.sleep_levels.getD (st.current_sleep_level + 1) 0) s hs
    rw [hmem, hlev]

/-- C9 witness: five empty reading lists (no activity possible) from the
enabled default state advance the level to `1` with duty cycle `0.6`. -/
theorem c9_five_inactive_cycles_witness :
    (run_sleep { default_optimizer with progressive_sleep := true }
        [⟨1, 3/2⟩] [[], [], [], []]).1.current_sleep_level = 0
    ∧ (run_sleep { default_optimizer with progressive_sleep := true }
        [⟨1, 3/2⟩] [[], [], [], [], []]).1.current_sleep_level = 1
    ∧ ∀ s ∈ (run_sleep { default_optimizer with progressive_sleep := true }
        [⟨1, 3/2⟩] [[], [], [], [], []]).2,
        s.duty_cycle
          = ({ default_optimizer with
                progressive_sleep := true } : OptimizerState).sleep_levels.getD 1 0 :=
  ⟨(c9_five_inactive_cycles
      { default_optimizer with progressive_sleep := true } [⟨1, 3/2⟩] [] [] [] [] []
      rfl rfl rfl rfl (by simp [default_optimizer]) rfl rfl rfl rfl rfl).1,
   (c9_five_inactive_cycles
      { default_optimizer with progressive_sleep := true } [⟨1, 3/2⟩] [] [] [] [] []
      rfl rfl rfl rfl (by simp [default_optimizer]) rfl rfl rfl rfl rfl).2.1,
   (c9_five_inactive_cycles
      { default_optimizer with progressive_sleep := true } [⟨1, 3/2⟩] [] [] [] [] []
      rfl rfl rfl rfl (by simp [default_optimizer]) rfl rfl rfl rfl rfl).2.2.2.2⟩

end SmartHome
